import Mathlib

/-!
# Verification of the configurable web-scraping engine (`scraper.py`)

A shallow embedding of the scraping/extraction/persistence engine.  The
embedding follows the source module `scraper.py` definition by definition:

* Python/JSON values are modelled by the inductive `Value` (JSON numbers are
  modelled as integers; no claim touches floating point).
* The configuration dictionary and extracted records are ordered association
  lists `List (String × Value)`, matching insertion-ordered Python dicts.
* The HTML-parsing library (BeautifulSoup) is modelled as a capability
  interface: a `Soup` maps a selector string to the ordered list of matching
  `Element`s, each exposing trimmed text, attribute lookup, and (for tables)
  the cell texts of its `tr` rows.
* Network effects are inputs: a `FetchOutcome` is the result of the already
  performed GET for a URL; `run` receives an environment `String → FetchOutcome`
  and the outcome of the (at most one) login POST.
* Exceptions become `Except Err`; the status callback becomes an explicit list
  of structured `Status` messages (message payloads are kept structurally
  rather than as the exact f-string texts).
* Files are modelled by their content: CSV as header plus string cells, the
  JSON output as its document tree (the `json` module's dump/load bijection
  between tree and text is assumed), sqlite as the inserted columns and rows
  (the table additionally carries an autoincrement `id` primary key, which is
  not part of the inserted data columns).
-/

set_option linter.unusedVariables false

namespace Scraper

/-- JSON/Python values as stored in the configuration and in records.
JSON numbers are modelled as integers. -/
inductive Value where
  | null : Value
  | bool : Bool → Value
  | int : Int → Value
  | str : String → Value
  | arr : List Value → Value
  | obj : List (String × Value) → Value

/-- The exception taxonomy of `scraper.py`.  `configError` carries the missing
key (`_require_config_value`), `scrapeError` carries which selector failed and
its text, and `unexpected` stands for non-`ScraperError` Python exceptions
(`TypeError`/`AttributeError`) that the engine itself never raises. -/
inductive Err where
  | configError (key : String)
  | loginError (msg : String)
  | scrapeError (which : String) (selector : String)
  | scraperError (msg : String)
  | unexpected (msg : String)
deriving DecidableEq, Repr

/-- `isinstance(e, ScraperError)`: every engine exception except the modelled
foreign Python exceptions. -/
def isScraperErrB : Err → Bool
  | .unexpected _ => false
  | _ => true

/-- `isinstance(e, ScrapeError)`. -/
def isScrapeErrB : Err → Bool
  | .scrapeError _ _ => true
  | _ => false

/-- Messages sent through the status callback, kept structurally. -/
inductive Status where
  | fetching (url : String)
  | networkError (url : String) (msg : String)
  | successScrape (url : String)
  | parsingError (url : String) (e : Err)
  | unexpectedParsingError (url : String) (e : Err)
  | unknownCaptureMode (mode : String)
  | loginSkippedCookies
  | loginNotRequired
  | submittingLogin
  | loginCompleted
  | startingWorkflow
  | noSuccessfulScrapes
  | dataSaved (path : String)
  | unhandledError (url : String)
  | saveErrorReported (e : Err)
  | workflowCompleted
deriving DecidableEq, Repr

/-- The configuration mapping (`self.config`). -/
abbrev Config := List (String × Value)

/-- One extracted record: an insertion-ordered mapping field name → value. -/
abbrev Record := List (String × Value)

/-- Python truthiness (`bool(v)`) of a modelled value. -/
def truthy : Value → Bool
  | .null => false
  | .bool b => b
  | .int n => n != 0
  | .str s => !s.isEmpty
  | .arr xs => !xs.isEmpty
  | .obj kvs => !kvs.isEmpty

/-- Association-list lookup used for both config and record access
(first binding wins; dict keys are unique). -/
def alistFind? (l : List (String × Value)) (k : String) : Option Value :=
  (l.find? (fun kv => kv.1 == k)).map (·.2)

/-- `self.config.get(key)` — `None` when the key is absent. -/
def cfgGet (cfg : Config) (k : String) : Value :=
  (alistFind? cfg k).getD .null

/-- `self.config.get(key, default)`. -/
def cfgGetD (cfg : Config) (k : String) (d : Value) : Value :=
  (alistFind? cfg k).getD d

/-- `row.get(field)` on a record. -/
def recordGet (r : Record) (k : String) : Value :=
  (alistFind? r k).getD .null

/-- `field in row` on a record. -/
def recordHasKey (r : Record) (k : String) : Bool :=
  (alistFind? r k).isSome

/-- The keys of a record, in insertion order (`row.keys()`). -/
def recordKeys (r : Record) : List String :=
  r.map Prod.fst

/-- Python dict assignment `d[k] = v`: overwrite in place or append. -/
def dictSet (r : Record) (k : String) (v : Value) : Record :=
  if recordHasKey r k then r.map (fun kv => if kv.1 == k then (k, v) else kv)
  else r ++ [(k, v)]

/-- `_require_config_value`: fails with `ConfigError` when the stored value is
`None` (or the key is absent) or the empty string. -/
def requireConfigValue (cfg : Config) (k : String) : Except Err Value :=
  match cfgGet cfg k with
  | .null => .error (.configError k)
  | .str s => if s.isEmpty then .error (.configError k) else .ok (.str s)
  | v => .ok v

/-- The single-quote character, written without an apostrophe literal. -/
def squote : String := String.singleton (Char.ofNat 39)

/-- Minimal escaping used by both `repr` and `json.dumps` renderings. -/
def escapeChar (quote : Char) (c : Char) : String :=
  if c == '\\' then "\\\\"
  else if c == quote then "\\" ++ String.singleton quote
  else if c == '\n' then "\\n"
  else if c == '\t' then "\\t"
  else if c == '\r' then "\\r"
  else String.singleton c

/-- Escape every character of a string. -/
def escapeStr (quote : Char) (s : String) : String :=
  String.join (s.toList.map (escapeChar quote))

mutual
/-- Python `repr(v)` for modelled values (single-quoted strings,
`", "`/`": "` separators as in list/dict reprs). -/
def pyRepr : Value → String
  | .null => "None"
  | .bool true => "True"
  | .bool false => "False"
  | .int n => toString n
  | .str s => squote ++ escapeStr (Char.ofNat 39) s ++ squote
  | .arr xs => "[" ++ pyReprList xs ++ "]"
  | .obj kvs => "\x7b" ++ pyReprObj kvs ++ "\x7d"

/-- Comma-joined reprs of list elements. -/
def pyReprList : List Value → String
  | [] => ""
  | [x] => pyRepr x
  | x :: xs => pyRepr x ++ ", " ++ pyReprList xs

/-- Comma-joined `key: value` reprs of dict entries. -/
def pyReprObj : List (String × Value) → String
  | [] => ""
  | [(k, v)] => squote ++ escapeStr (Char.ofNat 39) k ++ squote ++ ": " ++ pyRepr v
  | (k, v) :: kvs =>
      squote ++ escapeStr (Char.ofNat 39) k ++ squote ++ ": " ++ pyRepr v ++ ", " ++ pyReprObj kvs
end

/-- Python `str(v)`: strings pass through, everything else is `repr`-like. -/
def pyStr : Value → String
  | .str s => s
  | v => pyRepr v

mutual
/-- `json.dumps(v, ensure_ascii=False)` with the default `", "`/`": "`
separators. -/
def jsonDumps : Value → String
  | .null => "null"
  | .bool true => "true"
  | .bool false => "false"
  | .int n => toString n
  | .str s => "\"" ++ escapeStr '"' s ++ "\""
  | .arr xs => "[" ++ jsonDumpsList xs ++ "]"
  | .obj kvs => "\x7b" ++ jsonDumpsObj kvs ++ "\x7d"

/-- Comma-joined JSON renderings of array elements. -/
def jsonDumpsList : List Value → String
  | [] => ""
  | [x] => jsonDumps x
  | x :: xs => jsonDumps x ++ ", " ++ jsonDumpsList xs

/-- Comma-joined `"key": value` JSON renderings of object entries. -/
def jsonDumpsObj : List (String × Value) → String
  | [] => ""
  | [(k, v)] => "\"" ++ escapeStr '"' k ++ "\": " ++ jsonDumps v
  | (k, v) :: kvs =>
      "\"" ++ escapeStr '"' k ++ "\": " ++ jsonDumps v ++ ", " ++ jsonDumpsObj kvs
end

/-- Python `int(v)` restricted to the modelled values: `None`, lists and dicts
raise `TypeError` (`none` here); numeric strings parse, other strings raise. -/
def pyInt : Value → Option Int
  | .int n => some n
  | .bool true => some 1
  | .bool false => some 0
  | .str s => s.toInt?
  | _ => none

/-- One element returned by a selector query: its trimmed visible text
(`get_text(strip=True)`), its attributes, and — for table parsing — the list
of its `tr` rows, each as the trimmed texts of the `th`/`td` cells. -/
structure Element where
  text : String
  attrs : List (String × String)
  rows : List (List String)

/-- `tag.get(name)` attribute lookup. -/
def attrGet (e : Element) (k : String) : Option String :=
  (e.attrs.find? (fun kv => kv.1 == k)).map (·.2)

/-- The parsed page (`BeautifulSoup(response.text, "html.parser")`), modelled
as the capability interface "selector string ↦ ordered matches" plus the
whole-page visible text used by raw mode. -/
structure Soup where
  select : String → List Element
  pageText : String

/-- The raw HTTP response of a successful GET. -/
structure Response where
  status_code : Int
  text : String

/-- The outcome of the (already performed) GET for one URL: either a
`requests.RequestException` (also covering `raise_for_status`) or a response
with its parsed soup. -/
inductive FetchOutcome where
  | netError (msg : String)
  | ok (resp : Response) (soup : Soup)

/-- `str.lower()` (ASCII), written over the character list so that it
computes by kernel reduction. -/
def pyLower (s : String) : String :=
  String.mk (s.data.map Char.toLower)

/-- `_get_capture_mode`: `str(config.get("capture_mode", "parsed")).lower()`,
with anything outside `parsed`/`raw` falling back to `parsed`. -/
def getCaptureMode (cfg : Config) : String :=
  let mode := pyLower (pyStr (cfgGetD cfg "capture_mode" (.str "parsed")))
  if mode == "parsed" || mode == "raw" then mode else "parsed"

/-- The status message `_get_capture_mode` emits when the configured mode is
unrecognized. -/
def captureModeStatuses (cfg : Config) : List Status :=
  let mode := pyLower (pyStr (cfgGetD cfg "capture_mode" (.str "parsed")))
  if mode == "parsed" || mode == "raw" then [] else [.unknownCaptureMode mode]

/-- `soup.select(sel)` requires the selector to be a string; a non-string
raises a foreign `TypeError` inside the library. -/
def asSelector (v : Value) : Except Err String :=
  match v with
  | .str s => .ok s
  | _ => .error (.unexpected "TypeError: selector must be a string")

/-- `_capture_parsed`: requires the three selector config values (raising
`ConfigError` if missing/empty), then requires each selector to match
(raising `ScrapeError` otherwise), and assembles
`{url, question, answers, explanation}` from the trimmed texts. -/
def capture_parsed (cfg : Config) (url : String) (soup : Soup) : Except Err Record := do
  let qv ← requireConfigValue cfg "question_selector"
  let av ← requireConfigValue cfg "answer_selector"
  let ev ← requireConfigValue cfg "explanation_selector"

  let qsel ← asSelector qv
  let question_element ←
    match (soup.select qsel).head? with
    | none => .error (.scrapeError "question" qsel)
    | some e => .ok e

  let asel ← asSelector av
  let answer_elements := soup.select asel
  if answer_elements.isEmpty then
    .error (.scrapeError "answer" asel)
  else do
    let esel ← asSelector ev
    let explanation_element ←
      match (soup.select esel).head? with
      | none => .error (.scrapeError "explanation" esel)
      | some e => .ok e

    let answers : List String := answer_elements.map (·.text)
    .ok [("url", .str url),
         ("question", .str question_element.text),
         ("answers", .arr (answers.map .str)),
         ("explanation", .str explanation_element.text)]

/-- `_capture_raw`: `{url, status_code, retrieved_at, raw_html}` plus
`raw_text` when `raw_include_text` (default true) is truthy. `now` is the
ISO-8601 UTC timestamp taken at capture time. -/
def capture_raw (cfg : Config) (url : String) (resp : Response) (soup : Soup)
    (now : String) : Record :=
  let include_text := truthy (cfgGetD cfg "raw_include_text" (.bool true))
  let base : Record :=
    [("url", .str url),
     ("status_code", .int resp.status_code),
     ("retrieved_at", .str now),
     ("raw_html", .str resp.text)]
  if include_text then base ++ [("raw_text", .str soup.pageText)] else base

/-- The shared normalization of `table_selectors`/`image_selectors`:
`config.get(key) or []`, a single string becomes a one-element list, and a
non-list value means no extraction. -/
def normalizeSelectors (v : Value) : List Value :=
  match (if truthy v then v else Value.arr []) with
  | .str s => [.str s]
  | .arr xs => xs
  | _ => []

/-- `_parse_html_table`: keep every `tr` row whose cell list is non-empty. -/
def parse_html_table (e : Element) : List (List String) :=
  e.rows.filter (fun cells => !cells.isEmpty)

/-- Inner loop of `_extract_tables` for one selector value: skip non-string or
empty selectors, append each matched table that parsed to at least one row. -/
def tablesForSelector (soup : Soup) (tables : List (List (List String)))
    (sel : Value) : List (List (List String)) :=
  match sel with
  | .str s =>
      if s.isEmpty then tables
      else (soup.select s).foldl
        (fun acc table_tag =>
          let parsed_table := parse_html_table table_tag
          if parsed_table.isEmpty then acc else acc ++ [parsed_table])
        tables
  | _ => tables

/-- `_extract_tables`. -/
def extract_tables (cfg : Config) (soup : Soup) : List (List (List String)) :=
  (normalizeSelectors (cfgGet cfg "table_selectors")).foldl (tablesForSelector soup) []

/-- One matched element of `_extract_images`: read its `src`, skip when absent
or empty, resolve against the base URL, and append unless already present. -/
def addImage (uj : String → String → String) (base : String)
    (images : List String) (image_tag : Element) : List String :=
  match attrGet image_tag "src" with
  | none => images
  | some src =>
      if src.isEmpty then images
      else
        let absolute_url := uj base src
        if absolute_url ∈ images then images else images ++ [absolute_url]

/-- Inner loop of `_extract_images` for one selector value. -/
def imagesForSelector (soup : Soup) (uj : String → String → String) (base : String)
    (images : List String) (sel : Value) : List String :=
  match sel with
  | .str s => if s.isEmpty then images else (soup.select s).foldl (addImage uj base) images
  | _ => images

/-- `_extract_images`, with `urljoin` passed in as the URL-resolution
capability `uj`. -/
def extract_images (cfg : Config) (soup : Soup) (uj : String → String → String)
    (base_url : String) : List String :=
  (normalizeSelectors (cfgGet cfg "image_selectors")).foldl
    (imagesForSelector soup uj base_url) []

/-- The list value stored in a record's `tables` field. -/
def tablesToValue (ts : List (List (List String))) : Value :=
  .arr (ts.map (fun t => .arr (t.map (fun row => .arr (row.map .str)))))

/-- The extraction phase of `scrape_page` (the body of its `try`): capture by
mode, then additively attach non-empty `tables` and `images`. -/
def extractData (cfg : Config) (url : String) (resp : Response) (soup : Soup)
    (now : String) (uj : String → String → String) : Except Err Record := do
  let data ←
    if getCaptureMode cfg == "raw" then .ok (capture_raw cfg url resp soup now)
    else capture_parsed cfg url soup

  let tables := extract_tables cfg soup
  let data := if tables.isEmpty then data else dictSet data "tables" (tablesToValue tables)

  let images := extract_images cfg soup uj url
  let data := if images.isEmpty then data
    else dictSet data "images" (.arr (images.map .str))

  .ok data

/-- `max(int(config.get("rate_limit_delay", 1)), 0)`; a non-numeric value
raises a foreign `TypeError`/`ValueError`. -/
def rateLimitDelay (cfg : Config) : Except Err Int :=
  match pyInt (cfgGetD cfg "rate_limit_delay" (.int 1)) with
  | some n => .ok (max n 0)
  | none => .error (.unexpected "TypeError: int() of non-numeric value")

/-- `scrape_page`: sleep (whose duration computation can raise a foreign
exception, modelled as the `.error` component), fetch, then extract with the
page-level `except` clauses turning any `ScrapeError` or other exception into
`None`. -/
def scrape_page (cfg : Config) (url : String) (fetch : FetchOutcome) (now : String)
    (uj : String → String → String) : Except Err (Option Record) × List Status :=
  match rateLimitDelay cfg with
  | .error e => (.error e, [])
  | .ok _ =>
    match fetch with
    | .netError m => (.ok none, [.fetching url, .networkError url m])
    | .ok resp soup =>
      let modeMsgs := captureModeStatuses cfg
      match extractData cfg url resp soup now uj with
      | .ok data => (.ok (some data), [.fetching url] ++ modeMsgs ++ [.successScrape url])
      | .error e =>
        if isScrapeErrB e then (.ok none, [.fetching url] ++ modeMsgs ++ [.parsingError url e])
        else (.ok none, [.fetching url] ++ modeMsgs ++ [.unexpectedParsingError url e])

/-- What `login()` did when it returned normally: skipped because of session
cookies, skipped because login is not required, or issued the form POST with
the given target and payload. -/
inductive LoginAction where
  | skippedCookies
  | skippedNotRequired
  | postIssued (loginUrl : String) (payload : List (String × String))
deriving DecidableEq, Repr

/-- The cookie short-circuit of `login()`:
`isinstance(cookies, dict) and any(bool(v) for v in cookies.values())`. -/
def cookiesShortCircuit (cfg : Config) : Bool :=
  match cfgGet cfg "session_cookies" with
  | .obj kvs => kvs.any (fun kv => truthy kv.2)
  | _ => false

/-- `login()`.  `postResult` is the outcome of the (at most one) login POST
including `raise_for_status`: `.error m` models a `requests.RequestException`
with text `m`.  A present non-dict `credentials` value makes
`credentials.get(...)` raise a foreign `AttributeError`. -/
def login (cfg : Config) (postResult : Except String Unit) :
    Except Err LoginAction × List Status :=
  if cookiesShortCircuit cfg then (.ok .skippedCookies, [.loginSkippedCookies])
  else if !truthy (cfgGetD cfg "login_required" (.bool false)) then
    (.ok .skippedNotRequired, [.loginNotRequired])
  else
    let login_url := cfgGet cfg "login_url"
    let username_field := cfgGet cfg "login_username_field"
    let password_field := cfgGet cfg "login_password_field"
    match cfgGetD cfg "credentials" (.obj []) with
    | .obj creds =>
      let username := (alistFind? creds "username").getD .null
      let password := (alistFind? creds "password").getD .null
      if truthy login_url && truthy username_field && truthy password_field &&
          truthy username && truthy password then
        let payload := [(pyStr username_field, pyStr username),
                        (pyStr password_field, pyStr password)]
        match postResult with
        | .ok _ =>
            (.ok (.postIssued (pyStr login_url) payload), [.submittingLogin, .loginCompleted])
        | .error m => (.error (.loginError m), [.submittingLogin])
      else
        (.error (.loginError
          "Login configuration is incomplete. Please update config.json with the correct values."),
         [])
    | _ => (.error (.unexpected "AttributeError: credentials has no attribute get"), [])

/-- `if key not in fieldnames: fieldnames.append(key)`. -/
def insertKey (acc : List String) (k : String) : List String :=
  if k ∈ acc then acc else acc ++ [k]

/-- The inner key loop of `_collect_fieldnames`. -/
def insertKeys (acc : List String) (ks : List String) : List String :=
  ks.foldl insertKey acc

/-- `_collect_fieldnames`: union of keys in first-seen order, then `tables`
and `images` appended when absent. -/
def collect_fieldnames (data : List Record) : List String :=
  let fieldnames := data.foldl (fun acc row => insertKeys acc (recordKeys row)) []
  insertKey (insertKey fieldnames "tables") "images"

/-- The fields whose list values `_save_to_csv`/`_save_to_sqlite` pre-serialize. -/
def listFields : List String := ["answers", "tables", "images"]

/-- `isinstance(value, list)`. -/
def isListB : Value → Bool
  | .arr _ => true
  | _ => false

/-- `_coerce_for_csv` followed by the csv writer's stringification: `None`
renders as the empty cell, lists/dicts as compact JSON, scalars via `str`. -/
def coerce_for_csv : Value → String
  | .null => ""
  | .arr xs => jsonDumps (.arr xs)
  | .obj kvs => jsonDumps (.obj kvs)
  | v => pyStr v

/-- `_coerce_for_sqlite` followed by TEXT-affinity storage: `None` stays NULL,
lists/dicts become compact JSON, scalars are stored as their text. -/
def coerce_for_sqlite : Value → Option String
  | .null => none
  | .arr xs => some (jsonDumps (.arr xs))
  | .obj kvs => some (jsonDumps (.obj kvs))
  | .str s => some s
  | .int n => some (toString n)
  | .bool b => some (if b then "1" else "0")

/-- One CSV cell: `row.get(field)`, the `list_fields` pre-serialization, then
`_coerce_for_csv`. -/
def csvCell (row : Record) (field : String) : String :=
  let value := recordGet row field
  let value := if listFields.contains field && isListB value
    then Value.str (jsonDumps value) else value
  coerce_for_csv value

/-- One sqlite cell, same shape as `csvCell`. -/
def sqliteCell (row : Record) (field : String) : Option String :=
  let value := recordGet row field
  let value := if listFields.contains field && isListB value
    then Value.str (jsonDumps value) else value
  coerce_for_sqlite value

/-- `_save_to_csv`, as the written content: the header row and the data rows
in schema order. -/
def save_to_csv (data : List Record) : List String × List (List String) :=
  let fieldnames := collect_fieldnames data
  (fieldnames, data.map (fun row => fieldnames.map (csvCell row)))

/-- `_save_to_json`: the records are dumped as-is, so the document is the
array of the record objects with no schema unification or stringification. -/
def save_to_json (data : List Record) : Value :=
  .arr (data.map .obj)

/-- `_save_to_sqlite`, as the inserted content: the data columns of the
`scraped_data` table (the table also has an autoincrement `id` primary key)
and the inserted rows, committed as one unit. -/
def save_to_sqlite (data : List Record) : List String × List (List (Option String)) :=
  let fieldnames := collect_fieldnames data
  (fieldnames, data.map (fun row => fieldnames.map (sqliteCell row)))

/-- The written output file, by its content. -/
inductive SaveOutput where
  | csv (header : List String) (rows : List (List String))
  | json (doc : Value)
  | sqlite (columns : List String) (rows : List (List (Option String)))

/-- `(self.config.get("output_format") or "").lower()`: falsy values give the
empty string; a truthy non-string raises a foreign `AttributeError`. -/
def outputFormatLower (cfg : Config) : Except Err String :=
  match (if truthy (cfgGet cfg "output_format") then cfgGet cfg "output_format"
         else Value.str "") with
  | .str s => .ok (pyLower s)
  | _ => .error (.unexpected "AttributeError: value has no attribute lower")

/-- `save_data`: reject empty data, compute the lowered format, require
`output_filename` (whose path join needs a string), then dispatch. -/
def save_data (cfg : Config) (data : List Record) :
    Except Err (SaveOutput × List Status) := do
  if data.isEmpty then
    .error (.scraperError "No data was scraped; nothing to save.")
  else do
    let output_format ← outputFormatLower cfg
    let fnameValue ← requireConfigValue cfg "output_filename"
    let output_path ←
      match fnameValue with
      | .str s => Except.ok s
      | _ => .error (.unexpected "TypeError: unsupported path segment")

    let out : SaveOutput ←
      if output_format == "csv" then
        let (header, rows) := save_to_csv data
        .ok (.csv header rows)
      else if output_format == "json" then
        .ok (.json (save_to_json data))
      else if output_format == "sqlite" then
        let (columns, rows) := save_to_sqlite data
        .ok (.sqlite columns rows)
      else
        .error (.scraperError ("Unsupported output format: " ++ output_format))

    .ok (out, [.dataSaved output_path])

/-- `for url in config.get("start_urls", [])`: Python iteration over the
stored value — lists yield elements, strings their characters, dicts their
keys, anything else raises `TypeError`. -/
def pyIter : Value → Except Err (List Value)
  | .arr xs => .ok xs
  | .str s => .ok (s.toList.map (fun c => .str (String.singleton c)))
  | .obj kvs => .ok (kvs.map (fun kv => Value.str kv.1))
  | _ => .error (.unexpected "TypeError: value is not iterable")

/-- Matching a URL entry of `start_urls` against a plain page URL string. -/
def isStrEq (u : Value) (s : String) : Bool :=
  match u with
  | .str t => t == s
  | _ => false

/-- The per-URL loop of `run()`: skip falsy entries, scrape each remaining
URL (requests stringifies the URL), keep truthy (non-empty) records, and turn
an exception escaping `scrape_page` into the `Unhandled error` report. -/
def runLoop (cfg : Config) (env : String → FetchOutcome)
    (uj : String → String → String) (now : String) :
    List Value → List Record × List Status
  | [] => ([], [])
  | u :: us =>
    if !truthy u then runLoop cfg env uj now us
    else
      let s := pyStr u
      let (out, msgs) := scrape_page cfg s (env s) now uj
      let contrib : List Record :=
        match out with
        | .ok (some r) => if r.isEmpty then [] else [r]
        | _ => []
      let extra : List Status :=
        match out with
        | .error _ => [.unhandledError s]
        | _ => []
      let (rest, restMsgs) := runLoop cfg env uj now us
      (contrib ++ rest, msgs ++ extra ++ restMsgs)

/-- The observable outcome of one `run()`: its return value or the raised
fatal error, the written output file when persistence ran, and the emitted
status messages. -/
structure RunResult where
  result : Except Err (List Record)
  saved : Option SaveOutput
  statuses : List Status

/-- `run()`: login (fatal on failure), iterate `start_urls`, report
`No successful scrapes were recorded.` and return `[]` when nothing
accumulated, otherwise save (re-raising save errors after reporting the
`ScraperError` ones). -/
def run (cfg : Config) (env : String → FetchOutcome) (uj : String → String → String)
    (now : String) (postResult : Except String Unit) : RunResult :=
  let (loginRes, loginMsgs) := login cfg postResult
  let pre := Status.startingWorkflow :: loginMsgs
  match loginRes with
  | .error e => ⟨.error e, none, pre⟩
  | .ok _ =>
    match pyIter (cfgGetD cfg "start_urls" (.arr [])) with
    | .error e => ⟨.error e, none, pre⟩
    | .ok urls =>
      let (results, loopMsgs) := runLoop cfg env uj now urls
      if results.isEmpty then
        ⟨.ok [], none, pre ++ loopMsgs ++ [.noSuccessfulScrapes]⟩
      else
        match save_data cfg results with
        | .ok (out, saveMsgs) =>
            ⟨.ok results, some out, pre ++ loopMsgs ++ saveMsgs ++ [.workflowCompleted]⟩
        | .error e =>
            let errMsgs := if isScraperErrB e then [Status.saveErrorReported e] else []
            ⟨.error e, none, pre ++ loopMsgs ++ errMsgs⟩

/-! ## Concrete fixtures -/

/-- An element with the given trimmed text and nothing else. -/
def elemOfText (t : String) : Element := ⟨t, [], []⟩

/-- The configuration of the scenario in §8 of the spec. -/
def cfg3 : Config :=
  [("start_urls", .arr [.str "http://x/1"]),
   ("capture_mode", .str "parsed"),
   ("question_selector", .str "h1"),
   ("answer_selector", .str ".a"),
   ("explanation_selector", .str ".e"),
   ("output_format", .str "json"),
   ("output_filename", .str "out.json")]

/-- The page `<h1>Q</h1><div class="a">A1</div><div class="a">A2</div>
<div class="e">Expl</div>` seen through the selector interface. -/
def soup3 : Soup where
  select := fun sel =>
    if sel == "h1" then [elemOfText "Q"]
    else if sel == ".a" then [elemOfText "A1", elemOfText "A2"]
    else if sel == ".e" then [elemOfText "Expl"]
    else []
  pageText := "Q\nA1\nA2\nExpl"

/-- A successful response for that page. -/
def resp3 : Response :=
  ⟨200, "<h1>Q</h1><div class=\"a\">A1</div><div class=\"a\">A2</div><div class=\"e\">Expl</div>"⟩

/-- The network environment serving exactly that page. -/
def env3 : String → FetchOutcome :=
  fun u => if u == "http://x/1" then .ok resp3 soup3 else .netError "connection refused"

/-- A concrete URL resolver standing in for `urljoin` in closed scenarios. -/
def uj0 : String → String → String := fun base s => base ++ s

/-- The record the §8 scenario expects. -/
def rec3 : Record :=
  [("url", .str "http://x/1"),
   ("question", .str "Q"),
   ("answers", .arr [.str "A1", .str "A2"]),
   ("explanation", .str "Expl")]

/-- Reading one object of the written JSON array back as a record. -/
def decodeRecord : Value → Option Record
  | .obj kvs => some kvs
  | _ => none

/-- Reading the elements of the written JSON array back as records. -/
def decodeRecordList : List Value → Option (List Record)
  | [] => some []
  | x :: xs =>
    match decodeRecord x, decodeRecordList xs with
    | some r, some rs => some (r :: rs)
    | _, _ => none

/-- Parsing the written JSON document back into the record sequence. -/
def decodeRecords : Value → Option (List Record)
  | .arr xs => decodeRecordList xs
  | _ => none

/-- Decoding inverts the record-to-object embedding elementwise. -/
theorem decodeRecordList_map_obj (data : List Record) :
    decodeRecordList (data.map Value.obj) = some data := by
  induction data with
  | nil => rfl
  | cons r rs ih => simp [decodeRecordList, decodeRecord, ih]

/-- Dispatch of `save_data` in the json case. -/
theorem save_data_json (cfg : Config) (data : List Record) (fn : String)
    (hne : data ≠ [])
    (hfmt : outputFormatLower cfg = .ok "json")
    (hfn : requireConfigValue cfg "output_filename" = .ok (.str fn)) :
    save_data cfg data = .ok (.json (save_to_json data), [.dataSaved fn]) := by
  obtain ⟨a, as, rfl⟩ := List.exists_cons_of_ne_nil hne
  simp [save_data, hfmt, hfn, Bind.bind, Except.bind]

/-- `_require_config_value` fails exactly when the stored value is `None`
(or absent) or the empty string. -/
theorem requireConfigValue_missing (cfg : Config) (k : String)
    (h : cfgGet cfg k = .null ∨ cfgGet cfg k = .str "") :
    requireConfigValue cfg k = .error (.configError k) := by
  rcases h with h | h
  · simp [requireConfigValue, h]
  · simp [requireConfigValue, h]
    decide

/-- `save_data` on a non-empty data set whose `output_filename` is
missing/`None`/empty fails with the `ConfigError`, whatever string the
format computation produced. -/
theorem save_data_missing_filename (cfg : Config) (data : List Record) (fmt : String)
    (hne : data ≠ [])
    (hfmt : outputFormatLower cfg = .ok fmt)
    (hfn : cfgGet cfg "output_filename" = .null ∨ cfgGet cfg "output_filename" = .str "") :
    save_data cfg data = .error (.configError "output_filename") := by
  obtain ⟨a, as, rfl⟩ := List.exists_cons_of_ne_nil hne
  simp [save_data, hfmt, requireConfigValue_missing cfg "output_filename" hfn,
    Bind.bind, Except.bind]

/-- A missing/empty `question_selector` makes `_capture_parsed` fail with its
`ConfigError` before any selector is evaluated. -/
theorem capture_parsed_missing_question (cfg : Config) (url : String) (soup : Soup)
    (hq : cfgGet cfg "question_selector" = .null ∨ cfgGet cfg "question_selector" = .str "") :
    capture_parsed cfg url soup = .error (.configError "question_selector") := by
  simp [capture_parsed, requireConfigValue_missing cfg "question_selector" hq,
    Bind.bind, Except.bind]

/-- In parsed mode any extraction error of `_capture_parsed` is the error of
the whole extraction phase. -/
theorem extractData_of_capture_error (cfg : Config) (url : String) (resp : Response)
    (soup : Soup) (now : String) (uj : String → String → String) (e : Err)
    (hm : getCaptureMode cfg = "parsed")
    (hc : capture_parsed cfg url soup = .error e) :
    extractData cfg url resp soup now uj = .error e := by
  have hraw : (getCaptureMode cfg == "raw") = false := by rw [hm]; rfl
  simp [extractData, hraw, hc, Bind.bind, Except.bind]

/-- Whatever exception extraction raised, `scrape_page` catches it and
returns `None` for the page. -/
theorem scrape_page_error_none (cfg : Config) (url : String) (resp : Response)
    (soup : Soup) (now : String) (uj : String → String → String) (d : Int) (e : Err)
    (hd : rateLimitDelay cfg = .ok d)
    (hext : extractData cfg url resp soup now uj = .error e) :
    (scrape_page cfg url (.ok resp soup) now uj).1 = .ok none := by
  simp only [scrape_page, hd, hext]
  cases isScrapeErrB e <;> rfl

/-! ## The claims -/

/-- C3: for the §8 scenario configuration and the page
`<h1>Q</h1><div class="a">A1</div><div class="a">A2</div><div class="e">Expl</div>`,
extraction produces exactly the record
`{url: "http://x/1", question: "Q", answers: ["A1","A2"], explanation: "Expl"}`
(answers in document order, text trimmed), and the saved `out.json` is a
one-element array containing this object — both directly via
`scrape_page`/`save_data` and through the full `run`. -/
theorem claim_C3_scenario_parsed_json :
    (scrape_page cfg3 "http://x/1" (env3 "http://x/1") "T" uj0).1 = .ok (some rec3)
    ∧ save_data cfg3 [rec3] = .ok (.json (.arr [.obj rec3]), [.dataSaved "out.json"])
    ∧ (run cfg3 env3 uj0 "T" (.ok ())).result = .ok [rec3]
    ∧ (run cfg3 env3 uj0 "T" (.ok ())).saved = some (.json (.arr [.obj rec3])) :=
  ⟨rfl, rfl, rfl, rfl⟩

/-- C8: saving any result set with `output_format = json` writes the record
sequence as a JSON array whose parse yields a sequence equal to the original
records, nested lists and objects preserved in native form (the records are
embedded as JSON objects, not serialized to strings). -/
theorem claim_C8_json_roundtrip (cfg : Config) (data : List Record) (fn : String)
    (hne : data ≠ [])
    (hfmt : outputFormatLower cfg = .ok "json")
    (hfn : requireConfigValue cfg "output_filename" = .ok (.str fn)) :
    save_data cfg data = .ok (.json (save_to_json data), [.dataSaved fn])
    ∧ decodeRecords (save_to_json data) = some data := by
  refine ⟨save_data_json cfg data fn hne hfmt hfn, ?_⟩
  simp [save_to_json, decodeRecords, decodeRecordList_map_obj]

/-- Witness for C8 at the §8 configuration and record. -/
theorem claim_C8_witness :
    save_data cfg3 [rec3] = .ok (.json (save_to_json [rec3]), [.dataSaved "out.json"])
    ∧ decodeRecords (save_to_json [rec3]) = some [rec3] :=
  claim_C8_json_roundtrip cfg3 [rec3] "out.json" (by simp) rfl rfl

/-- C10: the `output_filename` requirement precedes format dispatch in
`save_data`: on any non-empty record sequence, when `output_filename` is
absent/`None`/empty, `save_data` fails with exactly `ConfigError` — not a
plain `ScraperError` — even when `output_format` is missing or an unsupported
string, and no output is produced. -/
theorem claim_C10_filename_before_dispatch (cfg : Config) (data : List Record)
    (fmt : String)
    (hne : data ≠ [])
    (hfmt : outputFormatLower cfg = .ok fmt)
    (hfn : cfgGet cfg "output_filename" = .null ∨ cfgGet cfg "output_filename" = .str "") :
    save_data cfg data = .error (.configError "output_filename") :=
  save_data_missing_filename cfg data fmt hne hfmt hfn

/-- Witness for C10: missing `output_filename` with an unsupported
`output_format`. -/
theorem claim_C10_witness :
    save_data [("output_format", .str "xml")] [rec3] = .error (.configError "output_filename") :=
  claim_C10_filename_before_dispatch [("output_format", .str "xml")] [rec3] "xml"
    (by simp) rfl (Or.inl rfl)

/-- The §8 configuration with `question_selector` removed: parsed mode with a
missing required configuration key. -/
def cfgNoQ : Config :=
  [("start_urls", .arr [.str "http://x/1"]),
   ("capture_mode", .str "parsed"),
   ("answer_selector", .str ".a"),
   ("explanation_selector", .str ".e"),
   ("output_format", .str "json"),
   ("output_filename", .str "out.json")]

/-- Counterexample to C4: with `capture_mode = parsed` and no
`question_selector`, a `ConfigError` is raised inside `_capture_parsed`,
i.e. during extraction of an already fetched page — after network activity —
and it is caught by `scrape_page`'s generic `except` clause (reported as an
unexpected parsing error), so the page is skipped and `run` finishes normally
instead of aborting: this `ConfigError` is neither pre-network nor fatal, and
it is not the missing-`output_filename` case. -/
theorem claim_C4_counterexample :
    capture_parsed cfgNoQ "http://x/1" soup3 = .error (.configError "question_selector")
    ∧ (scrape_page cfgNoQ "http://x/1" (.ok resp3 soup3) "T" uj0).1 = .ok none
    ∧ Status.unexpectedParsingError "http://x/1" (.configError "question_selector")
        ∈ (scrape_page cfgNoQ "http://x/1" (.ok resp3 soup3) "T" uj0).2
    ∧ (run cfgNoQ env3 uj0 "T" (.ok ())).result = .ok []
    ∧ Status.noSuccessfulScrapes ∈ (run cfgNoQ env3 uj0 "T" (.ok ())).statuses :=
  ⟨rfl, rfl, by decide, rfl, by decide⟩

/-- C4 amended: a `ConfigError` is not always fatal and pre-network.  The
missing-`output_filename` case is raised at save time; and the selector keys
required by parsed mode, when missing or empty, raise `ConfigError` during
per-page extraction — after the page fetch — where `scrape_page` catches it
at page granularity and returns `None`, so the run continues. -/
theorem claim_C4_amended (cfg cfg2 : Config) (url : String) (resp : Response)
    (soup : Soup) (now : String) (uj : String → String → String) (d : Int)
    (data : List Record) (fmt : String)
    (hd : rateLimitDelay cfg = .ok d)
    (hm : getCaptureMode cfg = "parsed")
    (hq : cfgGet cfg "question_selector" = .null ∨ cfgGet cfg "question_selector" = .str "")
    (hne : data ≠ [])
    (hfmt : outputFormatLower cfg2 = .ok fmt)
    (hfn : cfgGet cfg2 "output_filename" = .null ∨ cfgGet cfg2 "output_filename" = .str "") :
    capture_parsed cfg url soup = .error (.configError "question_selector")
    ∧ (scrape_page cfg url (.ok resp soup) now uj).1 = .ok none
    ∧ save_data cfg2 data = .error (.configError "output_filename") := by
  have hc := capture_parsed_missing_question cfg url soup hq
  exact ⟨hc,
    scrape_page_error_none cfg url resp soup now uj d _ hd
      (extractData_of_capture_error cfg url resp soup now uj _ hm hc),
    save_data_missing_filename cfg2 data fmt hne hfmt hfn⟩

/-- Witness for the amended C4 at the concrete configurations. -/
theorem claim_C4_amended_witness :
    capture_parsed cfgNoQ "http://x/1" soup3 = .error (.configError "question_selector")
    ∧ (scrape_page cfgNoQ "http://x/1" (.ok resp3 soup3) "T" uj0).1 = .ok none
    ∧ save_data [("output_format", .str "csv")] [rec3] = .error (.configError "output_filename") :=
  claim_C4_amended cfgNoQ [("output_format", .str "csv")] "http://x/1" resp3 soup3 "T" uj0
    1 [rec3] "csv" rfl rfl (Or.inl rfl) (by simp) rfl (Or.inl rfl)

/-- Counterexample to C5: with `output_format = json` the persisted records
are not normalized — the §8 record is written exactly as extracted, with no
`tables` or `images` field present. -/
theorem claim_C5_counterexample :
    save_data cfg3 [rec3] = .ok (.json (.arr [.obj rec3]), [.dataSaved "out.json"])
    ∧ recordHasKey rec3 "tables" = false
    ∧ recordHasKey rec3 "images" = false :=
  ⟨rfl, rfl, rfl⟩

/-- A key just inserted is a member. -/
theorem mem_insertKey_self (acc : List String) (k : String) : k ∈ insertKey acc k := by
  by_cases h : k ∈ acc <;> simp [insertKey, h]

/-- Insertion preserves membership. -/
theorem mem_insertKey_of_mem (acc : List String) (k k2 : String) (h : k ∈ acc) :
    k ∈ insertKey acc k2 := by
  by_cases h2 : k2 ∈ acc <;> simp [insertKey, h2, h]

/-- The forced `tables` and `images` columns are always in the collected
schema. -/
theorem tables_images_mem_collect_fieldnames (data : List Record) :
    "tables" ∈ collect_fieldnames data ∧ "images" ∈ collect_fieldnames data :=
  ⟨mem_insertKey_of_mem _ _ _ (mem_insertKey_self _ _), mem_insertKey_self _ _⟩

/-- C5 amended: once persisted through the CSV or sqlite writers, every
record is normalized to the collected union schema — each written row has one
cell per schema field, and the `tables`/`images` columns are always present
(possibly empty) whether or not any record populated them; the JSON writer
instead preserves the original records without normalization. -/
theorem claim_C5_amended (data : List Record) (hne : data ≠ []) :
    "tables" ∈ (save_to_csv data).1 ∧ "images" ∈ (save_to_csv data).1
    ∧ (∀ row ∈ (save_to_csv data).2, row.length = (save_to_csv data).1.length)
    ∧ "tables" ∈ (save_to_sqlite data).1 ∧ "images" ∈ (save_to_sqlite data).1
    ∧ (∀ row ∈ (save_to_sqlite data).2, row.length = (save_to_sqlite data).1.length)
    ∧ save_to_json data = .arr (data.map .obj) := by
  obtain ⟨ht, hi⟩ := tables_images_mem_collect_fieldnames data
  refine ⟨ht, hi, ?_, ht, hi, ?_, rfl⟩
  · intro row hrow
    simp only [save_to_csv, List.mem_map] at hrow ⊢
    obtain ⟨r, _, rfl⟩ := hrow
    simp
  · intro row hrow
    simp only [save_to_sqlite, List.mem_map] at hrow ⊢
    obtain ⟨r, _, rfl⟩ := hrow
    simp

/-- Witness for the amended C5 on the one-record result set of §8. -/
theorem claim_C5_amended_witness :
    "tables" ∈ (save_to_csv [rec3]).1 ∧ "images" ∈ (save_to_csv [rec3]).1
    ∧ (∀ row ∈ (save_to_csv [rec3]).2, row.length = (save_to_csv [rec3]).1.length)
    ∧ "tables" ∈ (save_to_sqlite [rec3]).1 ∧ "images" ∈ (save_to_sqlite [rec3]).1
    ∧ (∀ row ∈ (save_to_sqlite [rec3]).2, row.length = (save_to_sqlite [rec3]).1.length)
    ∧ save_to_json [rec3] = .arr ([rec3].map .obj) :=
  claim_C5_amended [rec3] (by simp)

/-- Processing one matched image element preserves freedom from duplicates:
the resolved URL is appended only when not already present. -/
theorem addImage_nodup (uj : String → String → String) (base : String) (tag : Element)
    (images : List String) (h : images.Nodup) : (addImage uj base images tag).Nodup := by
  simp only [addImage]
  split
  · exact h
  · split
    · exact h
    · split
      · exact h
      · rename_i hmem
        rw [← List.concat_eq_append]
        exact h.concat hmem

/-- The element loop of `_extract_images` preserves freedom from duplicates. -/
theorem foldl_addImage_nodup (uj : String → String → String) (base : String) :
    ∀ (tags : List Element) (images : List String), images.Nodup →
      (tags.foldl (addImage uj base) images).Nodup := by
  intro tags
  induction tags with
  | nil => exact fun images h => h
  | cons t ts ih => exact fun images h => ih _ (addImage_nodup uj base t images h)

/-- The selector step of `_extract_images` preserves freedom from duplicates. -/
theorem imagesForSelector_nodup (soup : Soup) (uj : String → String → String)
    (base : String) (sel : Value) (images : List String) (h : images.Nodup) :
    (imagesForSelector soup uj base images sel).Nodup := by
  cases sel with
  | str s =>
      by_cases hs : s.isEmpty
      · simp [imagesForSelector, hs, h]
      · simpa [imagesForSelector, hs] using foldl_addImage_nodup uj base (soup.select s) images h
  | null => exact h
  | bool b => exact h
  | int n => exact h
  | arr xs => exact h
  | obj kvs => exact h

/-- The selector loop of `_extract_images` preserves freedom from duplicates. -/
theorem foldl_imagesForSelector_nodup (soup : Soup) (uj : String → String → String)
    (base : String) :
    ∀ (sels : List Value) (images : List String), images.Nodup →
      (sels.foldl (imagesForSelector soup uj base) images).Nodup := by
  intro sels
  induction sels with
  | nil => exact fun images h => h
  | cons s ss ih => exact fun images h => ih _ (imagesForSelector_nodup soup uj base s images h)

/-- `_extract_images` never returns a duplicate URL. -/
theorem extract_images_nodup (cfg : Config) (soup : Soup)
    (uj : String → String → String) (base : String) :
    (extract_images cfg soup uj base).Nodup :=
  foldl_imagesForSelector_nodup soup uj base _ [] List.nodup_nil

/-- An `<img src="a.png">` element. -/
def imgA : Element := ⟨"", [("src", "a.png")], []⟩

/-- An `<img src="b.png">` element. -/
def imgB : Element := ⟨"", [("src", "b.png")], []⟩

/-- A configuration with two image selectors. -/
def cfgImg : Config := [("image_selectors", .arr [.str ".x", .str ".y"])]

/-- A page where both selectors match the same `<img src="a.png">`. -/
def soupImg : Soup where
  select := fun sel =>
    if sel == ".x" then [imgA]
    else if sel == ".y" then [imgA]
    else []
  pageText := ""

/-- A page whose first selector matches `b.png` then `a.png` and whose second
matches `b.png` again, to exhibit first-occurrence order. -/
def soupImg2 : Soup where
  select := fun sel =>
    if sel == ".x" then [imgB, imgA]
    else if sel == ".y" then [imgB]
    else []
  pageText := ""

/-- C9: image extraction deduplicates by first occurrence — every source
attribute is resolved against the page URL and appended only when that
absolute URL is not yet present, so the result never contains duplicates for
any configuration, page, and resolver; in particular two selectors matching
the same `<img src="a.png">` twice yield exactly one entry, and first-seen
insertion order is preserved. -/
theorem claim_C9_image_dedup :
    (∀ (cfg : Config) (soup : Soup) (uj : String → String → String) (base : String),
      (extract_images cfg soup uj base).Nodup)
    ∧ extract_images cfgImg soupImg uj0 "http://x/" = ["http://x/a.png"]
    ∧ extract_images cfgImg soupImg2 uj0 "http://x/" = ["http://x/b.png", "http://x/a.png"] :=
  ⟨extract_images_nodup, rfl, rfl⟩

/-- C6: `login()` skips form submission and succeeds whenever the configured
`session_cookies` mapping has a truthy value (this precedes the
`login_required` check), skips and succeeds when `login_required` is
falsy/absent, and otherwise — when the credentials entry is a mapping (or
absent, modelled as the empty mapping default) and any of `login_url`,
`login_username_field`, `login_password_field`, `credentials.username`,
`credentials.password` is missing or falsy — fails with `LoginError`; the
result does not depend on any POST outcome, so no HTTP request was issued. -/
theorem claim_C6_login_gating (cfg : Config) (post : Except String Unit) :
    (cookiesShortCircuit cfg = true → (login cfg post).1 = .ok .skippedCookies)
    ∧ (cookiesShortCircuit cfg = false →
        truthy (cfgGetD cfg "login_required" (.bool false)) = false →
        (login cfg post).1 = .ok .skippedNotRequired)
    ∧ (∀ creds, cookiesShortCircuit cfg = false →
        truthy (cfgGetD cfg "login_required" (.bool false)) = true →
        cfgGetD cfg "credentials" (.obj []) = .obj creds →
        (truthy (cfgGet cfg "login_url") = false
          ∨ truthy (cfgGet cfg "login_username_field") = false
          ∨ truthy (cfgGet cfg "login_password_field") = false
          ∨ truthy ((alistFind? creds "username").getD .null) = false
          ∨ truthy ((alistFind? creds "password").getD .null) = false) →
        (login cfg post).1 = .error (.loginError
          "Login configuration is incomplete. Please update config.json with the correct values.")) := by
  refine ⟨fun hck => ?_, fun hck hreq => ?_, fun creds hck hreq hcreds hmiss => ?_⟩
  · simp [login, hck]
  · simp [login, hck, hreq]
  · have hall : (truthy (cfgGet cfg "login_url")
        && truthy (cfgGet cfg "login_username_field")
        && truthy (cfgGet cfg "login_password_field")
        && truthy ((alistFind? creds "username").getD .null)
        && truthy ((alistFind? creds "password").getD .null)) = false := by
      rcases hmiss with h | h | h | h | h <;> simp [h]
    simp [login, hck, hreq, hcreds, hall]

/-- A configuration whose cookies short-circuit login. -/
def cfgCookies : Config := [("session_cookies", .obj [("sid", .str "abc123")])]

/-- A login-required configuration whose credentials lack the password. -/
def cfgNoPw : Config :=
  [("login_required", .bool true),
   ("login_url", .str "http://x/login"),
   ("login_username_field", .str "user"),
   ("login_password_field", .str "pass"),
   ("credentials", .obj [("username", .str "u")])]

/-- Witness for C6: cookie-based skip, and the §8 missing-password scenario
failing with `LoginError` with no dependence on any POST. -/
theorem claim_C6_witness :
    (login cfgCookies (.ok ())).1 = .ok .skippedCookies
    ∧ (login cfgNoPw (.error "never sent")).1 = .error (.loginError
        "Login configuration is incomplete. Please update config.json with the correct values.") :=
  ⟨(claim_C6_login_gating cfgCookies (.ok ())).1 rfl,
   (claim_C6_login_gating cfgNoPw (.error "never sent")).2.2 [("username", .str "u")]
     rfl rfl rfl (Or.inr (Or.inr (Or.inr (Or.inr rfl))))⟩

/-- C7: whenever login succeeded, `start_urls` was iterable, and after
attempting every configured URL no records accumulated, `run()` returns the
empty sequence without raising, persistence is never invoked (no output is
produced), and the "no successful scrapes" status is reported. -/
theorem claim_C7_empty_run (cfg : Config) (env : String → FetchOutcome)
    (uj : String → String → String) (now : String) (post : Except String Unit)
    (act : LoginAction) (urls : List Value)
    (hlogin : (login cfg post).1 = .ok act)
    (hurls : pyIter (cfgGetD cfg "start_urls" (.arr [])) = .ok urls)
    (hempty : (runLoop cfg env uj now urls).1 = []) :
    (run cfg env uj now post).result = .ok []
    ∧ (run cfg env uj now post).saved = none
    ∧ Status.noSuccessfulScrapes ∈ (run cfg env uj now post).statuses := by
  simp [run, hlogin, hurls, hempty]

/-- The §8 page with its `.a` answer elements removed. -/
def soupNoA : Soup where
  select := fun sel =>
    if sel == "h1" then [elemOfText "Q"]
    else if sel == ".e" then [elemOfText "Expl"]
    else []
  pageText := "Q\nExpl"

/-- The network environment serving the no-answers page. -/
def envNoA : String → FetchOutcome :=
  fun u => if u == "http://x/1" then .ok resp3 soupNoA else .netError "connection refused"

/-- Witness for C7 at the §8 no-answers scenario: the page has no `.a`
elements, so the only URL is skipped and the run is empty. -/
theorem claim_C7_witness :
    (run cfg3 envNoA uj0 "T" (.ok ())).result = .ok []
    ∧ (run cfg3 envNoA uj0 "T" (.ok ())).saved = none
    ∧ Status.noSuccessfulScrapes ∈ (run cfg3 envNoA uj0 "T" (.ok ())).statuses :=
  claim_C7_empty_run cfg3 envNoA uj0 "T" (.ok ()) .skippedNotRequired
    [.str "http://x/1"] rfl rfl rfl

/-- A non-empty string passes `_require_config_value`. -/
theorem requireConfigValue_str (cfg : Config) (k : String) (s : String)
    (h : cfgGet cfg k = .str s) (h0 : s ≠ "") :
    requireConfigValue cfg k = .ok (.str s) := by
  have h1 : s.isEmpty = false :=
    Bool.eq_false_iff.mpr (fun he => h0 ((String.isEmpty_iff s).mp he))
  simp [requireConfigValue, h, h1]

/-- With the three selectors configured as non-empty strings, a page on which
any of them matches nothing makes `_capture_parsed` fail with a
`ScrapeError`. -/
theorem capture_parsed_selector_unmatched (cfg : Config) (url : String) (soup : Soup)
    (qs as es : String)
    (hq : cfgGet cfg "question_selector" = .str qs) (hq0 : qs ≠ "")
    (ha : cfgGet cfg "answer_selector" = .str as) (ha0 : as ≠ "")
    (he : cfgGet cfg "explanation_selector" = .str es) (he0 : es ≠ "")
    (hmiss : soup.select qs = [] ∨ soup.select as = [] ∨ soup.select es = []) :
    ∃ w sel, capture_parsed cfg url soup = .error (.scrapeError w sel) := by
  have hrq := requireConfigValue_str cfg "question_selector" qs hq hq0
  have hra := requireConfigValue_str cfg "answer_selector" as ha ha0
  have hre := requireConfigValue_str cfg "explanation_selector" es he he0
  cases hqs : soup.select qs with
  | nil =>
      exact ⟨"question", qs,
        by simp [capture_parsed, hrq, hra, hre, asSelector, hqs, Bind.bind, Except.bind]⟩
  | cons qe qrest =>
      cases has : soup.select as with
      | nil =>
          exact ⟨"answer", as,
            by simp [capture_parsed, hrq, hra, hre, asSelector, hqs, has,
              Bind.bind, Except.bind]⟩
      | cons ae arest =>
          have hes : soup.select es = [] := by
            rcases hmiss with h | h | h
            · rw [hqs] at h; exact absurd h (by simp)
            · rw [has] at h; exact absurd h (by simp)
            · exact h
          exact ⟨"explanation", es,
            by simp [capture_parsed, hrq, hra, hre, asSelector, hqs, has, hes,
              Bind.bind, Except.bind]⟩

/-- A `ScrapeError` from extraction lands in `scrape_page`'s dedicated
`except ScrapeError` branch: the parsing-error status is reported. -/
theorem scrape_page_scrapeError_status (cfg : Config) (url : String) (resp : Response)
    (soup : Soup) (now : String) (uj : String → String → String) (d : Int)
    (w sel : String)
    (hd : rateLimitDelay cfg = .ok d)
    (hext : extractData cfg url resp soup now uj = .error (.scrapeError w sel)) :
    Status.parsingError url (.scrapeError w sel)
      ∈ (scrape_page cfg url (.ok resp soup) now uj).2 := by
  simp [scrape_page, hd, hext, isScrapeErrB]

/-- Unfolding one truthy URL of the `run()` loop, record component. -/
theorem runLoop_records_cons (cfg : Config) (env : String → FetchOutcome)
    (uj : String → String → String) (now : String) (u : Value) (us : List Value)
    (ht : truthy u = true) :
    (runLoop cfg env uj now (u :: us)).1 =
    (match (scrape_page cfg (pyStr u) (env (pyStr u)) now uj).1 with
     | .ok (some r) => if r.isEmpty then [] else [r]
     | _ => []) ++ (runLoop cfg env uj now us).1 := by
  simp [runLoop, ht]

/-- A falsy URL entry is skipped outright. -/
theorem runLoop_skip (cfg : Config) (env : String → FetchOutcome)
    (uj : String → String → String) (now : String) (u : Value) (us : List Value)
    (ht : truthy u = false) :
    runLoop cfg env uj now (u :: us) = runLoop cfg env uj now us := by
  simp [runLoop, ht]

/-- `isStrEq` detects exactly the string URL entries equal to `s`. -/
theorem isStrEq_true_iff (u : Value) (s : String) : isStrEq u s = true ↔ u = .str s := by
  cases u <;> simp [isStrEq]

/-- If scraping `url` yields no record, removing every `start_urls` entry
equal to `url` does not change the accumulated records: the URL contributes
nothing and all other URLs are unaffected. -/
theorem runLoop_filter_none (cfg : Config) (env : String → FetchOutcome)
    (uj : String → String → String) (now : String) (url : String)
    (hnone : (scrape_page cfg url (env url) now uj).1 = .ok none) :
    ∀ urls : List Value,
      (runLoop cfg env uj now urls).1 =
      (runLoop cfg env uj now (urls.filter (fun u => !isStrEq u url))).1 := by
  intro urls
  induction urls with
  | nil => rfl
  | cons u us ih =>
    rw [List.filter_cons]
    by_cases hf : isStrEq u url = true
    · have hu : u = .str url := (isStrEq_true_iff u url).mp hf
      rw [if_neg (show ¬(!isStrEq u url) = true by simp [hf])]
      by_cases ht : truthy u
      · rw [runLoop_records_cons cfg env uj now u us ht]
        have hpy : pyStr u = url := by rw [hu]; rfl
        rw [hpy, hnone]
        simpa using ih
      · rw [runLoop_skip cfg env uj now u us (Bool.eq_false_iff.mpr ht)]
        exact ih
    · have hf2 : isStrEq u url = false := Bool.eq_false_iff.mpr hf
      rw [if_pos (show (!isStrEq u url) = true by simp [hf2])]
      by_cases ht : truthy u
      · rw [runLoop_records_cons cfg env uj now u us ht,
          runLoop_records_cons cfg env uj now u (us.filter (fun v => !isStrEq v url)) ht, ih]
      · rw [runLoop_skip cfg env uj now u us (Bool.eq_false_iff.mpr ht),
          runLoop_skip cfg env uj now u (us.filter (fun v => !isStrEq v url))
            (Bool.eq_false_iff.mpr ht)]
        exact ih

/-- C1: for every fetched page scraped in parsed mode whose three configured
selectors include one matching zero elements, extraction fails with a
`ScrapeError`; the error is caught at page granularity (`scrape_page` returns
`None` and reports the parsing error), and in any run the URL contributes no
record while every other configured URL is processed unchanged. -/
theorem claim_C1_missing_selector_page_skipped (cfg : Config) (url : String)
    (resp : Response) (soup : Soup) (now : String) (uj : String → String → String)
    (d : Int) (qs as es : String)
    (hd : rateLimitDelay cfg = .ok d)
    (hm : getCaptureMode cfg = "parsed")
    (hq : cfgGet cfg "question_selector" = .str qs) (hq0 : qs ≠ "")
    (ha : cfgGet cfg "answer_selector" = .str as) (ha0 : as ≠ "")
    (he : cfgGet cfg "explanation_selector" = .str es) (he0 : es ≠ "")
    (hmiss : soup.select qs = [] ∨ soup.select as = [] ∨ soup.select es = []) :
    (∃ w sel, capture_parsed cfg url soup = .error (.scrapeError w sel))
    ∧ (scrape_page cfg url (.ok resp soup) now uj).1 = .ok none
    ∧ (∃ e, Status.parsingError url e ∈ (scrape_page cfg url (.ok resp soup) now uj).2)
    ∧ (∀ (env : String → FetchOutcome) (urls : List Value), env url = .ok resp soup →
        (runLoop cfg env uj now urls).1 =
        (runLoop cfg env uj now (urls.filter (fun u => !isStrEq u url))).1) := by
  obtain ⟨w, sel, hc⟩ :=
    capture_parsed_selector_unmatched cfg url soup qs as es hq hq0 ha ha0 he he0 hmiss
  have hext := extractData_of_capture_error cfg url resp soup now uj _ hm hc
  have hnone := scrape_page_error_none cfg url resp soup now uj d _ hd hext
  refine ⟨⟨w, sel, hc⟩, hnone, ⟨.scrapeError w sel,
    scrape_page_scrapeError_status cfg url resp soup now uj d w sel hd hext⟩,
    fun env urls henv => ?_⟩
  have hnone2 : (scrape_page cfg url (env url) now uj).1 = .ok none := by
    rw [henv]; exact hnone
  exact runLoop_filter_none cfg env uj now url hnone2 urls

/-- Witness for C1 at the §8 no-answers page: `.a` matches nothing. -/
theorem claim_C1_witness :
    (∃ w sel, capture_parsed cfg3 "http://x/1" soupNoA = .error (.scrapeError w sel))
    ∧ (scrape_page cfg3 "http://x/1" (.ok resp3 soupNoA) "T" uj0).1 = .ok none
    ∧ (∃ e, Status.parsingError "http://x/1" e
        ∈ (scrape_page cfg3 "http://x/1" (.ok resp3 soupNoA) "T" uj0).2)
    ∧ (∀ (env : String → FetchOutcome) (urls : List Value),
        env "http://x/1" = .ok resp3 soupNoA →
        (runLoop cfg3 env uj0 "T" urls).1 =
        (runLoop cfg3 env uj0 "T" (urls.filter (fun u => !isStrEq u "http://x/1"))).1) :=
  claim_C1_missing_selector_page_skipped cfg3 "http://x/1" resp3 soupNoA "T" uj0
    1 "h1" ".a" ".e" rfl rfl rfl (by decide) rfl (by decide) rfl (by decide)
    (Or.inr (Or.inl rfl))

/-- Modelled from the spec words, for comparison with `_collect_fieldnames`:
"the union of all keys across all records, in first-seen order" — keep the
first occurrence of each key of the concatenated key lists. -/
def firstSeenUnion : List String → List String
  | [] => []
  | k :: ks => k :: firstSeenUnion (ks.filter (fun x => !(x == k)))
termination_by l => l.length
decreasing_by
  simp only [List.length_cons]
  exact Nat.lt_succ_of_le (List.length_filter_le _ _)

/-- Modelled from the spec words: the first-seen union of all record keys,
"then forcibly appends `tables` and `images` if not already present". -/
def specUnionSchema (data : List Record) : List String :=
  let base := firstSeenUnion (data.map recordKeys).flatten
  let base2 := if "tables" ∈ base then base else base ++ ["tables"]
  if "images" ∈ base2 then base2 else base2 ++ ["images"]

/-- Unfolding of `firstSeenUnion` on a non-empty list. -/
theorem firstSeenUnion_cons (k : String) (ks : List String) :
    firstSeenUnion (k :: ks) = k :: firstSeenUnion (ks.filter (fun x => !(x == k))) := by
  rw [firstSeenUnion]

/-- The accumulator loop of `_collect_fieldnames` computes the accumulator
followed by the first-seen union of the not-yet-seen keys. -/
theorem insertKeys_eq_firstSeenUnion (ks : List String) :
    ∀ acc : List String,
      insertKeys acc ks = acc ++ firstSeenUnion (ks.filter (fun k => !decide (k ∈ acc))) := by
  induction ks with
  | nil => intro acc; simp [insertKeys, firstSeenUnion]
  | cons k ks ih =>
    intro acc
    by_cases hk : k ∈ acc
    · have h1 : insertKey acc k = acc := by simp [insertKey, hk]
      have h2 : (k :: ks).filter (fun x => !decide (x ∈ acc)) =
          ks.filter (fun x => !decide (x ∈ acc)) := by
        rw [List.filter_cons, if_neg (by simp [hk])]
      calc insertKeys acc (k :: ks) = insertKeys (insertKey acc k) ks := rfl
        _ = insertKeys acc ks := by rw [h1]
        _ = acc ++ firstSeenUnion (ks.filter (fun x => !decide (x ∈ acc))) := ih acc
        _ = acc ++ firstSeenUnion ((k :: ks).filter (fun x => !decide (x ∈ acc))) := by rw [h2]
    · have h1 : insertKey acc k = acc ++ [k] := by simp [insertKey, hk]
      have hpred : ∀ x, (!decide (x ∈ acc ++ [k])) = ((!(x == k)) && !decide (x ∈ acc)) := by
        intro x
        by_cases hxk : x = k
        · simp [hxk]
        · by_cases hxa : x ∈ acc <;> simp [hxk, hxa]
      have hff : ks.filter (fun x => !decide (x ∈ acc ++ [k])) =
          (ks.filter (fun x => !decide (x ∈ acc))).filter (fun x => !(x == k)) := by
        rw [List.filter_filter]
        exact List.filter_congr (fun x _ => hpred x)
      calc insertKeys acc (k :: ks)
          = insertKeys (acc ++ [k]) ks := by rw [show insertKeys acc (k :: ks) =
              insertKeys (insertKey acc k) ks from rfl, h1]
        _ = (acc ++ [k]) ++ firstSeenUnion (ks.filter (fun x => !decide (x ∈ acc ++ [k]))) :=
              ih (acc ++ [k])
        _ = acc ++ (k :: firstSeenUnion ((ks.filter (fun x => !decide (x ∈ acc))).filter
              (fun x => !(x == k)))) := by
              rw [List.append_assoc, List.singleton_append, hff]
        _ = acc ++ firstSeenUnion (k :: ks.filter (fun x => !decide (x ∈ acc))) := by
              rw [firstSeenUnion_cons]
        _ = acc ++ firstSeenUnion ((k :: ks).filter (fun x => !decide (x ∈ acc))) := by
              rw [List.filter_cons, if_pos (by simp [hk])]

/-- The nested row/key loops of `_collect_fieldnames` are one pass over the
concatenated key lists. -/
theorem foldl_insertKeys_flatten (data : List Record) :
    ∀ acc : List String,
      data.foldl (fun acc row => insertKeys acc (recordKeys row)) acc =
      insertKeys acc (data.map recordKeys).flatten := by
  induction data with
  | nil => intro acc; rfl
  | cons r rs ih =>
    intro acc
    calc (r :: rs).foldl (fun acc row => insertKeys acc (recordKeys row)) acc
        = rs.foldl (fun acc row => insertKeys acc (recordKeys row)) (insertKeys acc (recordKeys r)) := rfl
      _ = insertKeys (insertKeys acc (recordKeys r)) (rs.map recordKeys).flatten := ih _
      _ = insertKeys acc ((r :: rs).map recordKeys).flatten := by
            simp [insertKeys, List.foldl_append]

/-- `_collect_fieldnames` computes exactly the spec's schema: the first-seen
union of all keys with `tables` and `images` appended when absent. -/
theorem collect_fieldnames_eq_spec (data : List Record) :
    collect_fieldnames data = specUnionSchema data := by
  have h1 : data.foldl (fun acc row => insertKeys acc (recordKeys row)) [] =
      firstSeenUnion (data.map recordKeys).flatten := by
    rw [foldl_insertKeys_flatten data [], insertKeys_eq_firstSeenUnion]
    rw [show (fun k : String => !decide (k ∈ ([] : List String))) = (fun _ => true) from
      funext (fun k => by simp), List.filter_true]
    rfl
  rw [collect_fieldnames, h1]
  rfl

/-- A cell of a field the record does not contain renders as the empty CSV
cell. -/
theorem csvCell_missing (row : Record) (field : String)
    (h : recordHasKey row field = false) : csvCell row field = "" := by
  have hfind : alistFind? row field = none := by
    unfold recordHasKey at h
    cases hcase : alistFind? row field with
    | none => rfl
    | some v => rw [hcase] at h; exact absurd h (by simp)
  simp [csvCell, recordGet, hfind, isListB, coerce_for_csv]

/-- A cell of a field the record does not contain is stored as NULL. -/
theorem sqliteCell_missing (row : Record) (field : String)
    (h : recordHasKey row field = false) : sqliteCell row field = none := by
  have hfind : alistFind? row field = none := by
    unfold recordHasKey at h
    cases hcase : alistFind? row field with
    | none => rfl
    | some v => rw [hcase] at h; exact absurd h (by simp)
  simp [sqliteCell, recordGet, hfind, isListB, coerce_for_sqlite]

/-- C2: for every non-empty record sequence, the written CSV and sqlite
column schema is exactly the first-seen union of the keys across all records
with `tables` and `images` appended at the end when not already present; the
rows follow that schema, and any field absent from a record is written as the
empty string in CSV and as NULL in sqlite. -/
theorem claim_C2_schema_union_missing_fields (data : List Record) (hne : data ≠ []) :
    (save_to_csv data).1 = specUnionSchema data
    ∧ (save_to_sqlite data).1 = specUnionSchema data
    ∧ (save_to_csv data).2 = data.map (fun row => (specUnionSchema data).map (csvCell row))
    ∧ (save_to_sqlite data).2 = data.map (fun row => (specUnionSchema data).map (sqliteCell row))
    ∧ (∀ row ∈ data, ∀ field, recordHasKey row field = false →
        csvCell row field = "" ∧ sqliteCell row field = none) := by
  have hs := collect_fieldnames_eq_spec data
  refine ⟨by simp [save_to_csv, hs], by simp [save_to_sqlite, hs],
    by simp [save_to_csv, hs], by simp [save_to_sqlite, hs],
    fun row _ field h => ⟨csvCell_missing row field h, sqliteCell_missing row field h⟩⟩

/-- A second record with different keys, exercising schema union. -/
def recExtra : Record := [("url", .str "http://x/2"), ("note", .str "n")]

/-- Witness for C2 on a heterogeneous two-record result set. -/
theorem claim_C2_witness :
    (save_to_csv [rec3, recExtra]).1 = specUnionSchema [rec3, recExtra]
    ∧ (save_to_sqlite [rec3, recExtra]).1 = specUnionSchema [rec3, recExtra]
    ∧ (save_to_csv [rec3, recExtra]).2 =
        [rec3, recExtra].map (fun row => (specUnionSchema [rec3, recExtra]).map (csvCell row))
    ∧ (save_to_sqlite [rec3, recExtra]).2 =
        [rec3, recExtra].map (fun row => (specUnionSchema [rec3, recExtra]).map (sqliteCell row))
    ∧ (∀ row ∈ [rec3, recExtra], ∀ field, recordHasKey row field = false →
        csvCell row field = "" ∧ sqliteCell row field = none) :=
  claim_C2_schema_union_missing_fields [rec3, recExtra] (by simp)

end Scraper
